import Mathlib

/-!
Shallow embedding of the in-scope logic of src/frontend/src/app/page.tsx
(the X Algorithm Simulator frontend page). JavaScript numbers are modeled
as rationals, JavaScript strings as Lean strings (one Char per code unit;
all inputs of interest are ASCII), and the asynchronous submit handler as
a pure function from the pre-submission component state together with the
outcomes of the two network calls to the post-submission component state
paired with the list of HTTP requests issued. The fact that the handler is
a pure Lean function renders the determinism and purity stated by the
specification; resolution timing of the two fetch promises is absent from
the model because the handler consumes only their resolved values.
-/

namespace XAlgoSim

/-- Characters removed by JavaScript String.prototype.trim: tab, line feed,
vertical tab, form feed, carriage return, space, no-break space, the
Unicode space separators, the line and paragraph separators and the byte
order mark. -/
def isJsWhitespace (c : Char) : Bool :=
  c.toNat == 0x9 || c.toNat == 0xA || c.toNat == 0xB || c.toNat == 0xC ||
  c.toNat == 0xD || c.toNat == 0x20 || c.toNat == 0xA0 || c.toNat == 0x1680 ||
  (0x2000 ≤ c.toNat && c.toNat ≤ 0x200A) || c.toNat == 0x2028 ||
  c.toNat == 0x2029 || c.toNat == 0x202F || c.toNat == 0x205F ||
  c.toNat == 0x3000 || c.toNat == 0xFEFF

/-- Model of the JavaScript value.trim() call: drop whitespace characters
from both ends of the string. -/
def jsTrim (s : String) : String :=
  String.mk (((s.data.dropWhile isJsWhitespace).reverse.dropWhile isJsWhitespace).reverse)

/-- Characters accepted by the username character class of page.tsx line
175: ASCII letters, digits and underscore. -/
def isUsernameChar (c : Char) : Bool :=
  (97 ≤ c.toNat && c.toNat ≤ 122) || (65 ≤ c.toNat && c.toNat ≤ 90) ||
  (48 ≤ c.toNat && c.toNat ≤ 57) || c.toNat == 95

/-- Model of the regular expression test of page.tsx line 175: the whole
string consists of one or more characters of the username class. -/
def usernameRegexTest (value : String) : Bool :=
  !value.data.isEmpty && value.data.all isUsernameChar

/-- Embedding of validateUsername, page.tsx lines 172 to 177: the ordered
classification of a username string into the required, length, charset or
empty (valid) message. -/
def validateUsername (value : String) : String :=
  if jsTrim value = "" then "Username is required"
  else if value.length < 1 ∨ value.length > 15 then "Username must be 1-15 characters"
  else if usernameRegexTest value = false then
    "Username can only contain letters, numbers, and underscores"
  else ""

/-- Topic and weight pair of the analyze response, page.tsx lines 29 to 32. -/
structure TopicWithWeight where
  topic : String
  weight : ℚ

/-- Signal record of the report, page.tsx lines 34 to 38. -/
structure Signal where
  name : String
  adjustment : String
  reason : String

/-- Feed composition record of the report, page.tsx lines 40 to 44. -/
structure FeedComposition where
  increase : List String
  decrease : List String
  account_distribution : String

/-- Quality metrics record of the report, page.tsx lines 46 to 50. -/
structure QualityMetrics where
  prioritized_signals : List String
  spam_filters : List String
  diversity_mechanisms : List String

/-- Diversity metrics record of the report, page.tsx lines 52 to 57. -/
structure DiversityMetrics where
  diversity_score : ℚ
  topic_entropy : ℚ
  filter_bubble_risk : String
  viewpoint_diversity : String

/-- Opposing viewpoints record of the report, page.tsx lines 59 to 63. -/
structure OpposingViewpoints where
  included : Bool
  topics_with_diversity : List String
  explanation : String

/-- Temporal analysis record of the report, page.tsx lines 65 to 69. -/
structure TemporalAnalysis where
  recency_bias : String
  temporal_mix_explanation : String
  content_freshness : String

/-- Recommendation explanation record of the report, page.tsx lines 71 to 75. -/
structure RecommendationExplanation where
  signal_name : String
  why_this_recommendation : String
  expected_impact : String

/-- Full algorithm report of the analyze response, page.tsx lines 77 to 88. -/
structure AlgorithmReport where
  analysis_process : String
  signals_boosted : List Signal
  signals_reduced : List Signal
  feed_composition : FeedComposition
  quality_metrics : QualityMetrics
  diversity_metrics : DiversityMetrics
  opposing_viewpoints : OpposingViewpoints
  temporal_analysis : TemporalAnalysis
  recommendation_explanations : List RecommendationExplanation
  expected_outcome : String

/-- Token counters attached to the report, page.tsx lines 94 to 98. -/
structure TokenUsage where
  completion_tokens : Nat
  reasoning_tokens : Nat
  total_tokens : Nat

/-- Report plus token counters, page.tsx lines 92 to 99. -/
structure Recommendations where
  report : AlgorithmReport
  tokens : TokenUsage

/-- Body of a successful analyze response, page.tsx lines 90 to 100. -/
structure AnalyzeResponse where
  topics : List TopicWithWeight
  recommendations : Recommendations

/-- Component state of Home, page.tsx lines 143 to 150. -/
structure HomeState where
  username : String
  debouncedUsername : String
  loading : Bool
  results : Option AnalyzeResponse
  error : String
  inputError : String
  insights : List String
  currentInsightIndex : Nat

/-- Initial useState values of Home, page.tsx lines 143 to 150. -/
def initialState : HomeState :=
  { username := ""
    debouncedUsername := ""
    loading := false
    results := none
    error := ""
    inputError := ""
    insights := []
    currentInsightIndex := 0 }

/-- Embedding of handleUsernameChange, page.tsx lines 179 to 183: a
keystroke stores the new field value and its validation message, leaving
the debounced username untouched. -/
def handleUsernameChange (st : HomeState) (value : String) : HomeState :=
  { st with username := value, inputError := validateUsername value }

/-- Embedding of the debounce effect firing, page.tsx lines 153 to 159:
after the 500 ms timeout elapses without a further keystroke the debounced
username catches up with the field value. -/
def debounceSettle (st : HomeState) : HomeState :=
  { st with debouncedUsername := st.username }

/-- Embedding of one tick of the rotation interval, page.tsx lines 162 to
170: the effect installs an interval only when loading with a non-empty
insight list, and each tick advances the index by one modulo the list
length; when no interval is installed no tick can alter the state. -/
def insightTick (st : HomeState) : HomeState :=
  if st.loading ∧ st.insights.length ≠ 0 then
    { st with currentInsightIndex := (st.currentInsightIndex + 1) % st.insights.length }
  else st

/-- Endpoint of one of the two POST requests of handleSubmit. -/
inductive Endpoint where
  | insights
  | analyze
deriving DecidableEq

/-- One HTTP request issued by handleSubmit: its endpoint and the username
carried in its JSON body. -/
structure Request where
  endpoint : Endpoint
  username : String
deriving DecidableEq

/-- Fallback insight list of page.tsx lines 212 and 222. -/
def fallbackInsights : List String := ["Analyzing your profile..."]

/-- Resolved value of the insights fetch chain, page.tsx lines 208 to 212.
The insights field is an Option: none models a body whose insights field
is absent or falsy under the JavaScript truthiness test of line 222. -/
structure InsightsBody where
  insights : Option (List String)

/-- Resolution of the insights promise, page.tsx line 212: the catch
handler turns any rejection of the fetch or JSON parse into the fixed
fallback body, so the promise itself never rejects. The outer none models
a rejected chain. -/
def resolveInsights : Option InsightsBody → InsightsBody
  | none => { insights := some fallbackInsights }
  | some b => b

/-- Outcome of the analyze fetch, page.tsx lines 214 to 218 and 225 to
231: either the fetch promise rejects with an error message, or a
response arrives with a status code and a JSON body that parses to an
AnalyzeResponse or fails with a parse error message. -/
inductive AnalyzeOutcome where
  | fetchFailure (message : String)
  | response (status : Nat) (body : Except String AnalyzeResponse)

/-- Requests issued by the two fetch calls, page.tsx lines 208 and 214:
both carry the same trimmed username and both are created before either
response is awaited. -/
def submitRequests (u : String) : List Request :=
  [{ endpoint := Endpoint.insights, username := u },
   { endpoint := Endpoint.analyze, username := u }]

/-- State updates of the valid submission path up to and including the
insights await, page.tsx lines 193 to 222: loading set, previous error,
results, insights and index cleared, then the insights list installed
from the resolved insights body with the falsy-field fallback of line 222. -/
def startSubmission (st : HomeState) (iOut : Option InsightsBody) : HomeState :=
  { st with
    loading := true
    error := ""
    results := none
    insights := (resolveInsights iOut).insights.getD fallbackInsights
    currentInsightIndex := 0 }

/-- State updates of the analyze await, page.tsx lines 225 to 236: a
rejected fetch lands in the catch clause with its message; a non-2xx
status throws the constructed status message; a 2xx response either
parses, storing the results, or lands in the catch clause with the parse
message; the finally clause always clears loading. -/
def finishSubmission (st2 : HomeState) (aOut : AnalyzeOutcome) : HomeState :=
  match aOut with
  | AnalyzeOutcome.fetchFailure message => { st2 with error := message, loading := false }
  | AnalyzeOutcome.response status body =>
    if 200 ≤ status ∧ status ≤ 299 then
      match body with
      | Except.error message => { st2 with error := message, loading := false }
      | Except.ok data => { st2 with results := some data, loading := false }
    else
      { st2 with error := "Error: " ++ toString status, loading := false }

/-- Embedding of handleSubmit, page.tsx lines 185 to 237: validate the
debounced username, and on failure store the message and return without
issuing any request; on success issue the two requests carrying the
trimmed debounced username and fold both outcomes into the state. -/
def handleSubmit (st : HomeState) (iOut : Option InsightsBody) (aOut : AnalyzeOutcome) :
    HomeState × List Request :=
  if validateUsername st.debouncedUsername ≠ "" then
    ({ st with inputError := validateUsername st.debouncedUsername }, [])
  else
    (finishSubmission (startSubmission st iOut) aOut,
     submitRequests (jsTrim st.debouncedUsername))

/-- Render guard of the error panel, page.tsx line 314: shown exactly when
the error string is non-empty. -/
def errorPanelShown (st : HomeState) : Bool := decide (st.error ≠ "")

/-- Render guard of the results report, page.tsx line 322: shown exactly
when results is non-null. -/
def reportShown (st : HomeState) : Bool := st.results.isSome

/-- Insight string displayed during loading, page.tsx line 299. -/
def displayedInsight (st : HomeState) : Option String :=
  st.insights[st.currentInsightIndex]?

/-- Color class of the diversity score progress bar, page.tsx lines 481 to
485. -/
def diversityColorClass (score : ℚ) : String :=
  if score > 70 then "bg-green-500"
  else if score > 50 then "bg-yellow-500"
  else "bg-red-500"

/-- Color class of the filter bubble risk badge, page.tsx lines 493 to
496. -/
def riskBadgeClass (risk : String) : String :=
  if risk = "Low" then "bg-green-600"
  else if risk = "Moderate" then "bg-yellow-600"
  else "bg-red-600"

/-- Badge opacity of WeightedBadge, page.tsx line 123. -/
def badgeOpacity (weight : ℚ) : ℚ := 0.4 + weight * 0.6

/-- Percentage displayed by WeightedBadge, page.tsx lines 132 and 136:
toFixed 0 rounds to the nearest integer, ties toward the larger value. -/
def badgePercent (weight : ℚ) : ℤ := ⌊weight * 100 + 1 / 2⌋

lemma usernameChar_not_ws (c : Char) (h : isUsernameChar c = true) :
    isJsWhitespace c = false := by
  simp only [isUsernameChar, Bool.or_eq_true, Bool.and_eq_true, decide_eq_true_eq,
    beq_iff_eq] at h
  rw [← Bool.not_eq_true]
  intro hws
  simp only [isJsWhitespace, Bool.or_eq_true, Bool.and_eq_true, decide_eq_true_eq,
    beq_iff_eq] at hws
  omega

lemma dropWhile_ws_of_all (l : List Char) (h : ∀ c ∈ l, isUsernameChar c = true) :
    l.dropWhile isJsWhitespace = l := by
  cases l with
  | nil => rfl
  | cons x xs =>
    rw [List.dropWhile_cons, usernameChar_not_ws x (h x (by simp))]
    simp

lemma jsTrim_of_all_usernameChar (s : String) (h : ∀ c ∈ s.data, isUsernameChar c = true) :
    jsTrim s = s := by
  obtain ⟨l⟩ := s
  show String.mk _ = String.mk l
  rw [dropWhile_ws_of_all l h]
  rw [dropWhile_ws_of_all l.reverse (fun c hc => h c (List.mem_reverse.mp hc))]
  rw [List.reverse_reverse]

lemma string_length_data (s : String) : s.length = s.data.length := rfl

/-- C1: the score-to-tier mapping of the diversity score progress bar is
total and exhaustive: every score maps to exactly one of the green
(favorable), yellow (caution) or red (warning) color classes, with a
strict threshold above 70 for green, a strict threshold above 50 with at
most 70 for yellow and at most 50 for red; in particular 70 maps to
yellow, 50 maps to red, 71 maps to green and 49.9 maps to red. -/
theorem C1_diversity_score_tier_mapping (score : ℚ) :
    (diversityColorClass score = "bg-green-500" ∨ diversityColorClass score = "bg-yellow-500" ∨
      diversityColorClass score = "bg-red-500") ∧
    (score > 70 → diversityColorClass score = "bg-green-500") ∧
    (50 < score → score ≤ 70 → diversityColorClass score = "bg-yellow-500") ∧
    (score ≤ 50 → diversityColorClass score = "bg-red-500") ∧
    diversityColorClass 70 = "bg-yellow-500" ∧
    diversityColorClass 50 = "bg-red-500" ∧
    diversityColorClass 71 = "bg-green-500" ∧
    diversityColorClass (499 / 10) = "bg-red-500" := by
  refine ⟨?_, ?_, ?_, ?_, ?_, ?_, ?_, ?_⟩
  · unfold diversityColorClass
    split_ifs <;> simp
  · intro h
    simp [diversityColorClass, h]
  · intro h1 h2
    have hng : ¬ score > 70 := by linarith
    simp [diversityColorClass, hng, h1]
  · intro h
    have h1 : ¬ score > 70 := by linarith
    have h2 : ¬ score > 50 := by linarith
    simp [diversityColorClass, h1, h2]
  · norm_num [diversityColorClass]
  · norm_num [diversityColorClass]
  · norm_num [diversityColorClass]
  · norm_num [diversityColorClass]

/-- Witness for C1 at the concrete score 60, which lies in the caution
band. -/
theorem C1_diversity_score_tier_mapping_witness :
    diversityColorClass 60 = "bg-yellow-500" :=
  (C1_diversity_score_tier_mapping 60).2.2.1 (by norm_num) (by norm_num)

/-- C8: the badge opacity of a topic of weight w equals 0.4 plus w times
0.6, so weight one renders at opacity one and weight zero at opacity 0.4,
and the displayed percentage is w times 100 rounded to the nearest whole
number. -/
theorem C8_weighted_badge_opacity_and_percent (w : ℚ) :
    badgeOpacity w = 0.4 + w * 0.6 ∧
    badgeOpacity 1 = 1 ∧
    badgeOpacity 0 = 0.4 ∧
    badgePercent w = round (w * 100) := by
  refine ⟨rfl, by norm_num [badgeOpacity], by norm_num [badgeOpacity], ?_⟩
  rw [round_eq]
  rfl

/-- C9: the filter bubble risk badge color mapping is total over all
strings: Low maps to the green class, Moderate to the yellow class, and
every other string, including the expected value High, maps to the red
class. -/
theorem C9_risk_badge_total_mapping (risk : String) :
    riskBadgeClass "Low" = "bg-green-600" ∧
    riskBadgeClass "Moderate" = "bg-yellow-600" ∧
    riskBadgeClass "High" = "bg-red-600" ∧
    (risk ≠ "Low" → risk ≠ "Moderate" → riskBadgeClass risk = "bg-red-600") ∧
    (riskBadgeClass risk = "bg-green-600" ∨ riskBadgeClass risk = "bg-yellow-600" ∨
      riskBadgeClass risk = "bg-red-600") := by
  refine ⟨by decide, by decide, by decide, ?_, ?_⟩
  · intro h1 h2
    simp [riskBadgeClass, h1, h2]
  · unfold riskBadgeClass
    split_ifs <;> simp

/-- Witness for C9 at a concrete out-of-enum risk label, which degrades to
the red class. -/
theorem C9_risk_badge_total_mapping_witness :
    riskBadgeClass "Elevated" = "bg-red-600" :=
  (C9_risk_badge_total_mapping "Elevated").2.2.2.1 (by decide) (by decide)

/-- C2: the validator implements the ordered classification: an empty or
whitespace-only string yields the required message; otherwise a length
outside one to fifteen yields the length message; otherwise any character
outside the letter, digit or underscore class yields the charset message;
otherwise the validator returns the empty string. Its embedding as a Lean
function renders its purity and determinism. -/
theorem C2_validateUsername_ordered_classification (value : String) :
    (jsTrim value = "" → validateUsername value = "Username is required") ∧
    (jsTrim value ≠ "" → (value.length < 1 ∨ value.length > 15) →
      validateUsername value = "Username must be 1-15 characters") ∧
    (jsTrim value ≠ "" → 1 ≤ value.length → value.length ≤ 15 →
      (∃ c ∈ value.data, isUsernameChar c = false) →
      validateUsername value =
        "Username can only contain letters, numbers, and underscores") ∧
    (1 ≤ value.length → value.length ≤ 15 →
      (∀ c ∈ value.data, isUsernameChar c = true) →
      validateUsername value = "") := by
  refine ⟨?_, ?_, ?_, ?_⟩
  · intro h
    simp [validateUsername, h]
  · intro h1 h2
    rw [validateUsername, if_neg h1, if_pos h2]
  · intro h1 hlo hhi hbad
    have hlen : ¬ (value.length < 1 ∨ value.length > 15) := by omega
    have hfalse : usernameRegexTest value = false := by
      rcases hbad with ⟨c, hc, hcf⟩
      cases ht : usernameRegexTest value
      · rfl
      · exfalso
        have hand : ¬value.data = [] ∧ ∀ x ∈ value.data, isUsernameChar x = true := by
          simpa [usernameRegexTest] using ht
        rw [hand.2 c hc] at hcf
        exact Bool.noConfusion hcf
    rw [validateUsername, if_neg h1, if_neg hlen, if_pos hfalse]
  · intro hlo hhi hall
    have htrim : jsTrim value = value := jsTrim_of_all_usernameChar value hall
    have hne : value ≠ "" := by
      intro he
      rw [he] at hlo
      simp [string_length_data] at hlo
    have hlen : ¬ (value.length < 1 ∨ value.length > 15) := by omega
    have hd : value.data ≠ [] := by
      intro hnil
      have : value.length = 0 := by rw [string_length_data, hnil]; rfl
      omega
    have htest : ¬ usernameRegexTest value = false := by
      have : usernameRegexTest value = true := by
        simp only [usernameRegexTest, Bool.and_eq_true, Bool.not_eq_true']
        exact ⟨by simpa using hd, List.all_eq_true.mpr hall⟩
      simp [this]
    have htr : ¬ jsTrim value = "" := by
      rw [htrim]
      exact hne
    rw [validateUsername, if_neg htr, if_neg hlen, if_neg htest]

/-- Witness for C2 at the concrete valid username elonmusk, which passes
all three gates. -/
theorem C2_validateUsername_ordered_classification_witness :
    validateUsername "elonmusk" = "" :=
  (C2_validateUsername_ordered_classification "elonmusk").2.2.2
    (by decide) (by decide) (by decide)

lemma handleSubmit_valid_eq (st : HomeState) (iOut : Option InsightsBody)
    (aOut : AnalyzeOutcome) (hvalid : validateUsername st.debouncedUsername = "") :
    handleSubmit st iOut aOut =
      (finishSubmission (startSubmission st iOut) aOut,
       submitRequests (jsTrim st.debouncedUsername)) := by
  have h : ¬ (validateUsername st.debouncedUsername ≠ "") := by simp [hvalid]
  rw [handleSubmit, if_neg h]

lemma handleSubmit_invalid_eq (st : HomeState) (iOut : Option InsightsBody)
    (aOut : AnalyzeOutcome) (hinvalid : validateUsername st.debouncedUsername ≠ "") :
    handleSubmit st iOut aOut =
      ({ st with inputError := validateUsername st.debouncedUsername }, []) := by
  rw [handleSubmit, if_pos hinvalid]

lemma finishSubmission_insights (st2 : HomeState) (aOut : AnalyzeOutcome) :
    (finishSubmission st2 aOut).insights = st2.insights := by
  cases aOut with
  | fetchFailure message => rfl
  | response status body =>
    simp only [finishSubmission]
    split
    · cases body <;> rfl
    · rfl

lemma finishSubmission_index (st2 : HomeState) (aOut : AnalyzeOutcome) :
    (finishSubmission st2 aOut).currentInsightIndex = st2.currentInsightIndex := by
  cases aOut with
  | fetchFailure message => rfl
  | response status body =>
    simp only [finishSubmission]
    split
    · cases body <;> rfl
    · rfl

lemma finishSubmission_loading (st2 : HomeState) (aOut : AnalyzeOutcome) :
    (finishSubmission st2 aOut).loading = false := by
  cases aOut with
  | fetchFailure message => rfl
  | response status body =>
    simp only [finishSubmission]
    split
    · cases body <;> rfl
    · rfl

lemma string_append_ne_empty (s t : String) (hs : s.length ≠ 0) : s ++ t ≠ "" := by
  intro h
  have hlen := congrArg String.length h
  rw [String.length_append] at hlen
  have h0 : ("" : String).length = 0 := rfl
  omega

/-- Concrete component state with a valid debounced username, used by the
witnesses of the submit handler claims. -/
def exampleState : HomeState :=
  { username := "elonmusk"
    debouncedUsername := "elonmusk"
    loading := false
    results := none
    error := ""
    inputError := ""
    insights := []
    currentInsightIndex := 0 }

/-- C3: when the analyze call returns a non-2xx status, no report is
rendered (results stays null and the report guard is off), the error panel
guard is on with the message Error: followed by the numeric status code,
and exactly one analyze request was issued, so there is no automatic
retry. -/
theorem C3_analyze_non2xx_error (st : HomeState) (iOut : Option InsightsBody)
    (status : Nat) (body : Except String AnalyzeResponse)
    (hvalid : validateUsername st.debouncedUsername = "")
    (hbad : ¬ (200 ≤ status ∧ status ≤ 299)) :
    (handleSubmit st iOut (AnalyzeOutcome.response status body)).1.results = none ∧
    (handleSubmit st iOut (AnalyzeOutcome.response status body)).1.error =
      "Error: " ++ toString status ∧
    errorPanelShown (handleSubmit st iOut (AnalyzeOutcome.response status body)).1 = true ∧
    reportShown (handleSubmit st iOut (AnalyzeOutcome.response status body)).1 = false ∧
    ((handleSubmit st iOut (AnalyzeOutcome.response status body)).2.filter
      (fun r => r.endpoint == Endpoint.analyze)).length = 1 := by
  rw [handleSubmit_valid_eq st iOut _ hvalid]
  have hfin : finishSubmission (startSubmission st iOut)
      (AnalyzeOutcome.response status body) =
      { startSubmission st iOut with
          error := "Error: " ++ toString status, loading := false } := by
    simp only [finishSubmission]
    rw [if_neg hbad]
  rw [hfin]
  refine ⟨rfl, rfl, ?_, rfl, rfl⟩
  simp only [errorPanelShown, decide_eq_true_eq]
  exact string_append_ne_empty _ _ (by decide)

/-- Witness for C3 at the example state and a concrete 500 response. -/
theorem C3_analyze_non2xx_error_witness :
    (handleSubmit exampleState none
      (AnalyzeOutcome.response 500 (Except.error "boom"))).1.error = "Error: 500" :=
  (C3_analyze_non2xx_error exampleState none 500 (Except.error "boom")
    (by decide) (by decide)).2.1

/-- C4: when the insights call rejects, or resolves to a body whose
insights field is absent or falsy, the displayed insight sequence is the
fixed one-element fallback, the rotation index is zero and stays zero
under ticks on that one-element sequence, and no error is surfaced for
this path when the analyze call succeeds. -/
theorem C4_insights_fallback (st : HomeState) (iOut : Option InsightsBody)
    (aOut : AnalyzeOutcome)
    (hvalid : validateUsername st.debouncedUsername = "")
    (hfail : iOut = none ∨ iOut = some { insights := none }) :
    (handleSubmit st iOut aOut).1.insights = ["Analyzing your profile..."] ∧
    (handleSubmit st iOut aOut).1.currentInsightIndex = 0 ∧
    displayedInsight (handleSubmit st iOut aOut).1 = some "Analyzing your profile..." ∧
    (∀ status data, aOut = AnalyzeOutcome.response status (Except.ok data) →
      200 ≤ status → status ≤ 299 → (handleSubmit st iOut aOut).1.error = "") ∧
    (∀ st2 : HomeState, st2.insights = ["Analyzing your profile..."] →
      st2.currentInsightIndex = 0 → (insightTick st2).currentInsightIndex = 0) := by
  rw [handleSubmit_valid_eq st iOut aOut hvalid]
  have hins : (startSubmission st iOut).insights = ["Analyzing your profile..."] := by
    rcases hfail with h | h <;> subst h <;> rfl
  refine ⟨?_, ?_, ?_, ?_, ?_⟩
  · rw [finishSubmission_insights, hins]
  · rw [finishSubmission_index]
    rfl
  · rw [displayedInsight, finishSubmission_insights, finishSubmission_index, hins]
    rfl
  · intro status data haOut h200 h299
    subst haOut
    simp only [finishSubmission]
    rw [if_pos ⟨h200, h299⟩]
    rfl
  · intro st2 h2 hidx
    rw [insightTick]
    split
    · rw [h2] at *
      simp [hidx]
    · simpa using hidx

/-- Witness for C4 at the example state, a rejected insights chain and a
successful analyze response is deferred to the concrete body built from
the example report. -/
theorem C4_insights_fallback_witness :
    (handleSubmit exampleState none (AnalyzeOutcome.fetchFailure "net")).1.insights =
      ["Analyzing your profile..."] :=
  (C4_insights_fallback exampleState none (AnalyzeOutcome.fetchFailure "net")
    (by decide) (Or.inl rfl)).1

/-- C5: for a non-empty insight sequence the rotation index stays in
bounds: a tick while loading advances it by exactly one modulo the length,
a tick while not loading leaves the state unchanged, a tick on an empty
sequence leaves the state unchanged, and a valid submission resets the
index to zero before rotation starts. -/
theorem C5_rotation_index_invariant (st : HomeState)
    (hlen : 0 < st.insights.length)
    (hidx : st.currentInsightIndex < st.insights.length) :
    (insightTick st).currentInsightIndex < st.insights.length ∧
    (st.loading = true →
      (insightTick st).currentInsightIndex =
        (st.currentInsightIndex + 1) % st.insights.length) ∧
    (st.loading = false → insightTick st = st) ∧
    (∀ st2 : HomeState, st2.insights = [] → insightTick st2 = st2) ∧
    (∀ st0 : HomeState, ∀ iOut : Option InsightsBody, ∀ aOut : AnalyzeOutcome,
      validateUsername st0.debouncedUsername = "" →
      (handleSubmit st0 iOut aOut).1.currentInsightIndex = 0) := by
  refine ⟨?_, ?_, ?_, ?_, ?_⟩
  · rw [insightTick]
    split
    · simpa using Nat.mod_lt _ hlen
    · simpa using hidx
  · intro hload
    rw [insightTick, if_pos ⟨hload, by omega⟩]
  · intro hload
    rw [insightTick, if_neg]
    intro hcon
    rw [hload] at hcon
    exact Bool.noConfusion hcon.1
  · intro st2 h2
    rw [insightTick, if_neg]
    intro hcon
    rw [h2] at hcon
    exact hcon.2 rfl
  · intro st0 iOut aOut hvalid
    rw [handleSubmit_valid_eq st0 iOut aOut hvalid, finishSubmission_index]
    rfl

/-- Witness for C5 at a concrete loading state with a two-element insight
sequence and index one, whose tick wraps back to zero. -/
theorem C5_rotation_index_invariant_witness :
    (insightTick { exampleState with
        loading := true, insights := ["a", "b"], currentInsightIndex := 1
      }).currentInsightIndex < 2 :=
  (C5_rotation_index_invariant { exampleState with
      loading := true, insights := ["a", "b"], currentInsightIndex := 1 }
    (by decide) (by decide)).1

/-- C6: when the validator rejects the debounced username the submit
handler returns before issuing any network request: the request list is
empty and the state is unchanged except for the inline input error
message; the concrete input a b is rejected with the charset message. -/
theorem C6_invalid_input_no_requests (st : HomeState) (iOut : Option InsightsBody)
    (aOut : AnalyzeOutcome)
    (hinvalid : validateUsername st.debouncedUsername ≠ "") :
    (handleSubmit st iOut aOut).2 = [] ∧
    (handleSubmit st iOut aOut).1 =
      { st with inputError := validateUsername st.debouncedUsername } ∧
    validateUsername "a b" =
      "Username can only contain letters, numbers, and underscores" := by
  rw [handleSubmit_invalid_eq st iOut aOut hinvalid]
  exact ⟨rfl, rfl, by decide⟩

/-- Witness for C6 at the example state carrying the debounced username
a b, which fails the charset gate. -/
theorem C6_invalid_input_no_requests_witness :
    (handleSubmit { exampleState with debouncedUsername := "a b" } none
      (AnalyzeOutcome.fetchFailure "net")).2 = [] :=
  (C6_invalid_input_no_requests { exampleState with debouncedUsername := "a b" }
    none (AnalyzeOutcome.fetchFailure "net") (by decide)).1

/-- C7: on every valid submission the handler issues exactly the insights
request followed by the analyze request, both carrying the trimmed
debounced username, and the issued request list is independent of both
network outcomes, rendering that the two fetches are created before
either response is awaited. -/
theorem C7_concurrent_fanout (st : HomeState) (iOut iOut2 : Option InsightsBody)
    (aOut aOut2 : AnalyzeOutcome)
    (hvalid : validateUsername st.debouncedUsername = "") :
    (handleSubmit st iOut aOut).2 =
      [{ endpoint := Endpoint.insights, username := jsTrim st.debouncedUsername },
       { endpoint := Endpoint.analyze, username := jsTrim st.debouncedUsername }] ∧
    (handleSubmit st iOut aOut).2 = (handleSubmit st iOut2 aOut2).2 := by
  rw [handleSubmit_valid_eq st iOut aOut hvalid,
    handleSubmit_valid_eq st iOut2 aOut2 hvalid]
  exact ⟨rfl, rfl⟩

/-- Witness for C7 at the example state with a rejected insights chain and
a failed analyze fetch. -/
theorem C7_concurrent_fanout_witness :
    (handleSubmit exampleState none (AnalyzeOutcome.fetchFailure "net")).2 =
      [{ endpoint := Endpoint.insights, username := "elonmusk" },
       { endpoint := Endpoint.analyze, username := "elonmusk" }] :=
  (C7_concurrent_fanout exampleState none (some { insights := none })
    (AnalyzeOutcome.fetchFailure "net") (AnalyzeOutcome.fetchFailure "other")
    (by decide)).1

/-- C10: the submit handler validates and sends the debounced username,
not the currently displayed field value: every issued request carries the
trimmed debounced username, the handler output is invariant under the
displayed field value, a keystroke never changes the debounced username,
and in the concrete reachable state where the field shows ab while the
debounce still holds a, both requests carry a. -/
theorem C10_submits_debounced_username (st : HomeState) (iOut : Option InsightsBody)
    (aOut : AnalyzeOutcome)
    (hvalid : validateUsername st.debouncedUsername = "") :
    (∀ r ∈ (handleSubmit st iOut aOut).2, r.username = jsTrim st.debouncedUsername) ∧
    (∀ u : String,
      (handleSubmit { st with username := u } iOut aOut).2 =
        (handleSubmit st iOut aOut).2) ∧
    (∀ st0 : HomeState, ∀ v : String,
      (handleUsernameChange st0 v).debouncedUsername = st0.debouncedUsername) ∧
    (handleUsernameChange (debounceSettle (handleUsernameChange initialState "a"))
      "ab").username = "ab" ∧
    (handleUsernameChange (debounceSettle (handleUsernameChange initialState "a"))
      "ab").debouncedUsername = "a" ∧
    (handleSubmit (handleUsernameChange (debounceSettle
      (handleUsernameChange initialState "a")) "ab") iOut aOut).2 =
      [{ endpoint := Endpoint.insights, username := "a" },
       { endpoint := Endpoint.analyze, username := "a" }] := by
  refine ⟨?_, ?_, ?_, rfl, rfl, ?_⟩
  · rw [handleSubmit_valid_eq st iOut aOut hvalid]
    intro r hr
    fin_cases hr <;> rfl
  · intro u
    rw [handleSubmit_valid_eq st iOut aOut hvalid,
      handleSubmit_valid_eq { st with username := u } iOut aOut hvalid]
  · intro st0 v
    rfl
  · rw [handleSubmit_valid_eq _ iOut aOut (by decide)]
    rfl

/-- Witness for C10 at the example state with a rejected insights chain
and a failed analyze fetch. -/
theorem C10_submits_debounced_username_witness :
    (handleUsernameChange (debounceSettle (handleUsernameChange initialState "a"))
      "ab").debouncedUsername = "a" :=
  (C10_submits_debounced_username exampleState none
    (AnalyzeOutcome.fetchFailure "net") (by decide)).2.2.2.2.1

end XAlgoSim
